import Mathlib

/-! Verification of the delegation-routing and multi-source search core of the
Multi-Agent-Assistance repository.

The Python sources `agents/base_agents.py`, `agents/search_agent.py` and
`agents/api_agent.py` are shallowly embedded below.  Python strings are
modelled as Lean `String`s; models of Python string methods are named `py…`
and follow CPython semantics on ASCII input (Unicode-only behaviour such as
non-ASCII case folding or exotic whitespace is outside the modelled subset).
Awaited calls to external collaborators (the two HTTP information sources and
the LLM summarizer) are modelled as `Except Unit String`-valued parameters:
`Except.error ()` stands for a raised exception, `Except.ok s` for a normal
return of `s`.  The `List String` component returned by the search model is
the trace of prompts passed to the summarizer collaborator, so "the
summarizer is never invoked" is exactly "the trace is empty". -/

/-! Models of Python string primitives. -/

/-- Characters stripped by Python `str.strip()` (ASCII whitespace subset). -/
def pyIsSpace (c : Char) : Bool :=
  c = ' ' || c = '\t' || c = '\n' || c = '\r' || c = '\x0b' || c = '\x0c'

/-- Model of Python `str.strip()`. -/
def pyStrip (s : String) : String :=
  String.mk (((s.data.dropWhile pyIsSpace).reverse.dropWhile pyIsSpace).reverse)

/-- ASCII lower-casing of one character, as Python `str.lower()` does on ASCII. -/
def pyLowerChar (c : Char) : Char :=
  if 65 ≤ c.toNat ∧ c.toNat ≤ 90 then Char.ofNat (c.toNat + 32) else c

/-- Model of Python `str.lower()` (ASCII subset). -/
def pyLower (s : String) : String := String.mk (s.data.map pyLowerChar)

/-- Model of Python `str.startswith(pre)`. -/
def pyStartsWith (s pre : String) : Bool := pre.data.isPrefixOf s.data

/-- Model of Python `str.endswith(suf)`. -/
def pyEndsWith (s suf : String) : Bool := suf.data.reverse.isPrefixOf s.data.reverse

/-- Model of Python slicing `s[n:]` (character based). -/
def pyDrop (s : String) (n : Nat) : String := String.mk (s.data.drop n)

/-- Model of Python slicing `s[:-1]`. -/
def pyDropLast (s : String) : String := String.mk s.data.dropLast

/-- Model of Python `len(s)` (character count). -/
def pyLen (s : String) : Nat := s.data.length

/-- Helper for the substring test: does `pat` occur in the character list? -/
def containsAux (pat : List Char) : List Char → Bool
  | [] => pat.isEmpty
  | c :: rest => pat.isPrefixOf (c :: rest) || containsAux pat rest

/-- Model of Python `needle in haystack` on strings. -/
def pyContains (needle haystack : String) : Bool := containsAux needle.data haystack.data

/-- Fuelled worker for `pyReplace`; the fuel is the length of the subject list,
enough because every step consumes at least one character when `pat ≠ []`
(the only way the repository calls it). -/
def replaceAux (pat rep : List Char) : Nat → List Char → List Char
  | _, [] => []
  | 0, cs => cs
  | fuel + 1, c :: rest =>
    if pat.isPrefixOf (c :: rest) then
      rep ++ replaceAux pat rep fuel ((c :: rest).drop pat.length)
    else
      c :: replaceAux pat rep fuel rest

/-- Model of Python `s.replace(pat, rep)` (all non-overlapping occurrences,
left to right, for a non-empty `pat`). -/
def pyReplace (s pat rep : String) : String :=
  String.mk (replaceAux pat.data rep.data s.data.length s.data)

/-- Model of Python `sep.join(xs)`. -/
def pyJoin (sep : String) : List String → String
  | [] => ""
  | [x] => x
  | x :: y :: rest => x ++ sep ++ pyJoin sep (y :: rest)

/-- Model of Python `s.split(":", 1)[1]`: everything after the first colon.
Callers in the embedded code only reach this when a colon is present. -/
def afterFirstColon (s : String) : String :=
  String.mk ((s.data.dropWhile (fun c => c ≠ ':')).drop 1)

/-! Model of the JSON values produced by Python `json.loads`, and of the
decoder itself.  Numbers keep their lexeme only: the routing code never looks
at a numeric value, it only matters that a number is not a string.  The
modelled decoder covers the JSON grammar as CPython's strict `json.loads`
accepts it (objects, arrays, strings with escapes, numbers, literals,
`NaN`/`Infinity`), rejecting trailing data; lone `\u` surrogates are outside
the modelled subset. -/

inductive JVal where
  | jnull : JVal
  | jbool : Bool → JVal
  | jnum : String → JVal
  | jstr : String → JVal
  | jarr : List JVal → JVal
  | jobj : List (String × JVal) → JVal
deriving Repr

/-- Opening brace character, `'\x7b'`. -/
def braceOpen : Char := Char.ofNat 123

/-- Closing brace character, `'\x7d'`. -/
def braceClose : Char := Char.ofNat 125

/-- Value of a hexadecimal digit. -/
def hexVal (c : Char) : Option Nat :=
  if '0' ≤ c ∧ c ≤ '9' then some (c.toNat - 48)
  else if 'a' ≤ c ∧ c ≤ 'f' then some (c.toNat - 87)
  else if 'A' ≤ c ∧ c ≤ 'F' then some (c.toNat - 55)
  else none

/-- JSON inter-token whitespace. -/
def jsonWs (c : Char) : Bool := c = ' ' || c = '\t' || c = '\n' || c = '\r'

/-- Skip JSON whitespace. -/
def skipWs (cs : List Char) : List Char := cs.dropWhile jsonWs

/-- Fuelled JSON string-body scanner (after the opening quote), building the
decoded characters in reverse in `acc`. -/
def parseStrAux : Nat → List Char → List Char → Except Unit (String × List Char)
  | 0, _, _ => .error ()
  | fuel + 1, acc, cs =>
    match cs with
    | [] => .error ()
    | c :: rest =>
      if c = '"' then .ok (String.mk acc.reverse, rest)
      else if c = '\\' then
        match rest with
        | [] => .error ()
        | e :: rest2 =>
          if e = '"' then parseStrAux fuel ('"' :: acc) rest2
          else if e = '\\' then parseStrAux fuel ('\\' :: acc) rest2
          else if e = '/' then parseStrAux fuel ('/' :: acc) rest2
          else if e = 'b' then parseStrAux fuel (Char.ofNat 8 :: acc) rest2
          else if e = 'f' then parseStrAux fuel (Char.ofNat 12 :: acc) rest2
          else if e = 'n' then parseStrAux fuel ('\n' :: acc) rest2
          else if e = 'r' then parseStrAux fuel ('\r' :: acc) rest2
          else if e = 't' then parseStrAux fuel ('\t' :: acc) rest2
          else if e = 'u' then
            match rest2 with
            | h1 :: h2 :: h3 :: h4 :: rest3 =>
              match hexVal h1, hexVal h2, hexVal h3, hexVal h4 with
              | some a, some b, some c1, some d =>
                let n := ((a * 16 + b) * 16 + c1) * 16 + d
                if 0xD800 ≤ n ∧ n ≤ 0xDBFF then
                  match rest3 with
                  | '\\' :: 'u' :: g1 :: g2 :: g3 :: g4 :: rest4 =>
                    match hexVal g1, hexVal g2, hexVal g3, hexVal g4 with
                    | some a2, some b2, some c2, some d2 =>
                      let m := ((a2 * 16 + b2) * 16 + c2) * 16 + d2
                      if 0xDC00 ≤ m ∧ m ≤ 0xDFFF then
                        parseStrAux fuel
                          (Char.ofNat (0x10000 + (n - 0xD800) * 1024 + (m - 0xDC00)) :: acc) rest4
                      else .error ()
                    | _, _, _, _ => .error ()
                  | _ => .error ()
                else if 0xDC00 ≤ n ∧ n ≤ 0xDFFF then .error ()
                else parseStrAux fuel (Char.ofNat n :: acc) rest3
              | _, _, _, _ => .error ()
            | _ => .error ()
          else .error ()
      else if c.toNat < 32 then .error ()
      else parseStrAux fuel (c :: acc) rest

/-- Exponent digits of a JSON number lexeme. -/
def parseExpDigits (lex : List Char) (cs : List Char) : Except Unit (String × List Char) :=
  let p := match cs with
    | '+' :: rest => (['+'], rest)
    | '-' :: rest => (['-'], rest)
    | _ => (([] : List Char), cs)
  let ds := p.2.takeWhile Char.isDigit
  if ds = [] then .error ()
  else .ok (String.mk (lex ++ p.1 ++ ds), p.2.dropWhile Char.isDigit)

/-- Optional exponent part of a JSON number lexeme. -/
def parseExpPart (lex : List Char) (cs : List Char) : Except Unit (String × List Char) :=
  match cs with
  | 'e' :: rest => parseExpDigits (lex ++ ['e']) rest
  | 'E' :: rest => parseExpDigits (lex ++ ['E']) rest
  | _ => .ok (String.mk lex, cs)

/-- JSON number lexeme: `-? (0 | [1-9][0-9]*) (. [0-9]+)? ([eE][+-]?[0-9]+)?`. -/
def parseNum (cs : List Char) : Except Unit (String × List Char) :=
  let p := match cs with | '-' :: rest => ((['-'] : List Char), rest) | _ => ([], cs)
  let intPart := p.2.takeWhile Char.isDigit
  let cs2 := p.2.dropWhile Char.isDigit
  if intPart = [] then .error ()
  else if 1 < intPart.length ∧ intPart.headD 'x' = '0' then .error ()
  else
    match cs2 with
    | '.' :: rest =>
      let frac := rest.takeWhile Char.isDigit
      if frac = [] then .error ()
      else parseExpPart (p.1 ++ intPart ++ '.' :: frac) (rest.dropWhile Char.isDigit)
    | _ => parseExpPart (p.1 ++ intPart) cs2

/-- Parser modes: a value, or the inside of an object or array. -/
inductive PMode where
  | value : PMode
  | objBody : List (String × JVal) → PMode
  | objRest : List (String × JVal) → PMode
  | arrBody : List JVal → PMode
  | arrRest : List JVal → PMode

/-- Fuelled recursive-descent JSON reader.  Structural recursion on the fuel
keeps every run kernel-reducible. -/
def parseP : Nat → PMode → List Char → Except Unit (JVal × List Char)
  | 0, _, _ => .error ()
  | fuel + 1, mode, cs0 =>
    match mode with
    | .value =>
      let cs := skipWs cs0
      match cs with
      | [] => .error ()
      | c :: rest =>
        if c = braceOpen then
          let cs2 := skipWs rest
          match cs2 with
          | d :: rest2 => if d = braceClose then .ok (.jobj [], rest2) else parseP fuel (.objBody []) cs2
          | [] => .error ()
        else if c = '[' then
          let cs2 := skipWs rest
          match cs2 with
          | d :: rest2 => if d = ']' then .ok (.jarr [], rest2) else parseP fuel (.arrBody []) cs2
          | [] => .error ()
        else if c = '"' then
          match parseStrAux (rest.length + 1) [] rest with
          | .ok (s, rest2) => .ok (.jstr s, rest2)
          | .error _ => .error ()
        else if c = 't' then
          if ['r', 'u', 'e'].isPrefixOf rest then .ok (.jbool true, rest.drop 3) else .error ()
        else if c = 'f' then
          if ['a', 'l', 's', 'e'].isPrefixOf rest then .ok (.jbool false, rest.drop 4) else .error ()
        else if c = 'n' then
          if ['u', 'l', 'l'].isPrefixOf rest then .ok (.jnull, rest.drop 3) else .error ()
        else if c = 'N' then
          if ['a', 'N'].isPrefixOf rest then .ok (.jnum "NaN", rest.drop 2) else .error ()
        else if c = 'I' then
          if ['n', 'f', 'i', 'n', 'i', 't', 'y'].isPrefixOf rest then
            .ok (.jnum "Infinity", rest.drop 7)
          else .error ()
        else if c = '-' ∧ rest.headD ' ' = 'I' then
          if ['I', 'n', 'f', 'i', 'n', 'i', 't', 'y'].isPrefixOf rest then
            .ok (.jnum "-Infinity", rest.drop 8)
          else .error ()
        else
          match parseNum (c :: rest) with
          | .ok (lex, rest2) => .ok (.jnum lex, rest2)
          | .error _ => .error ()
    | .objBody acc =>
      let cs := skipWs cs0
      match cs with
      | '"' :: rest =>
        match parseStrAux (rest.length + 1) [] rest with
        | .error _ => .error ()
        | .ok (key, rest2) =>
          match skipWs rest2 with
          | ':' :: rest4 =>
            match parseP fuel .value rest4 with
            | .error _ => .error ()
            | .ok (v, rest5) => parseP fuel (.objRest (acc ++ [(key, v)])) rest5
          | _ => .error ()
      | _ => .error ()
    | .objRest acc =>
      let cs := skipWs cs0
      match cs with
      | c :: rest =>
        if c = braceClose then .ok (.jobj acc, rest)
        else if c = ',' then parseP fuel (.objBody acc) rest
        else .error ()
      | [] => .error ()
    | .arrBody acc =>
      match parseP fuel .value cs0 with
      | .error _ => .error ()
      | .ok (v, rest) => parseP fuel (.arrRest (acc ++ [v])) rest
    | .arrRest acc =>
      let cs := skipWs cs0
      match cs with
      | c :: rest =>
        if c = ']' then .ok (.jarr acc, rest)
        else if c = ',' then parseP fuel (.arrBody acc) rest
        else .error ()
      | [] => .error ()

/-- Model of Python `json.loads`: decode the whole string, rejecting
trailing data, or fail (the model's single error stands for
`json.JSONDecodeError`). -/
def json_loads (s : String) : Except Unit JVal :=
  match parseP (2 * s.data.length + 4) .value s.data with
  | .error _ => .error ()
  | .ok (v, rest) => if skipWs rest = [] then .ok v else .error ()

/-! Embedding of `agents/base_agents.py`.

`JARVISAssistant.process_request` first streams the planner's output into
`buffer` (external collaborator, the model input here), then extracts and
decodes a delegation object and routes.  The embedding
`process_request_route` captures everything the function does with the
buffer: which downstream call is chosen with which arguments, returning the
buffer itself on fallback, or which Python exception escapes.  The actual
awaited agent calls are opaque collaborators and are represented by the
`RouteAction` constructors. -/

/-- Python exceptions that can escape `process_request`'s routing code:
`.strip()` on a non-string `task` raises `AttributeError`; an unhashable
decoded `agent` value (a JSON array or object) makes the registry membership
test raise `TypeError`.  Only `json.JSONDecodeError` is caught by the code. -/
inductive PyExn where
  | attributeError : PyExn
  | typeError : PyExn
deriving Repr, DecidableEq

/-- The action `process_request` takes after parsing the planner buffer. -/
inductive RouteAction where
  | fallback : String → RouteAction
  | weather : String → RouteAction
  | news : String → RouteAction
  | stock : String → RouteAction
  | searchTask : String → RouteAction
  | agentTask : String → String → RouteAction
deriving Repr, DecidableEq

/-- The keys of the `AGENTS` registry dictionary in `base_agents.py`. -/
def AGENTS_keys : List String := ["planner", "task", "tool", "api", "search"]

/-- Model of Python `dict.get` on a JSON-decoded object: with duplicate keys
the later binding wins, as in a CPython dict built by `json.loads`. -/
def dictGet (fields : List (String × JVal)) (k : String) : Option JVal :=
  fields.foldl (fun acc p => if p.1 = k then some p.2 else acc) none

/-- Index of the first occurrence of `c`, Python `str.find`. -/
def firstIdxOf (cs : List Char) (c : Char) : Option Nat :=
  cs.findIdx? (fun d => d = c)

/-- Index of the last occurrence of `c`, Python `str.rfind`. -/
def lastIdxOf (cs : List Char) (c : Char) : Option Nat :=
  match firstIdxOf cs.reverse c with
  | some i => some (cs.length - 1 - i)
  | none => none

/-- Lines 116-120 of `base_agents.py`: take the substring from the first
`'\x7b'` to the last `'\x7d'` inclusive, provided both exist in that order. -/
def extract_json (buffer : String) : Option String :=
  let cs := buffer.data
  match firstIdxOf cs braceOpen, lastIdxOf cs braceClose with
  | some s, some e => if s < e then some (String.mk ((cs.drop s).take (e - s + 1))) else none
  | _, _ => none

/-- Lines 124-149 of `base_agents.py`: what the `try` body does with a
successfully decoded `plan`.  `task = plan.get("task", "").strip()` runs
first and raises `AttributeError` on a non-string task; the membership test
`agent_key in self.agents` raises `TypeError` on an unhashable decoded agent
value; an unroutable agent key falls through to `return buffer`. -/
def route_plan (buffer : String) (plan : JVal) : Except PyExn RouteAction :=
  match plan with
  | .jobj fields =>
    match (dictGet fields "task").getD (.jstr "") with
    | .jstr s =>
      let task := pyStrip s
      match dictGet fields "agent" with
      | some (.jarr _) => .error .typeError
      | some (.jobj _) => .error .typeError
      | some (.jstr k) =>
        if k ∈ AGENTS_keys ∧ k ≠ "planner" then
          if k = "api" then
            let low := pyLower task
            if pyStartsWith low "weather:" then .ok (.weather (pyStrip (afterFirstColon task)))
            else if pyStartsWith low "news:" then .ok (.news (pyStrip (afterFirstColon task)))
            else if pyStartsWith low "stock:" then .ok (.stock (pyStrip (afterFirstColon task)))
            else .ok (.agentTask "api" task)
          else if k = "search" then .ok (.searchTask task)
          else .ok (.agentTask k task)
        else .ok (.fallback buffer)
      | _ => .ok (.fallback buffer)
    | _ => .error .attributeError
  | _ => .error .attributeError

/-- Lines 115-156 of `base_agents.py`: extract a brace-delimited substring,
decode it (a decode error is caught and falls back to returning the buffer),
then route the decoded plan. -/
def process_request_route (buffer : String) : Except PyExn RouteAction :=
  match extract_json buffer with
  | none => .ok (.fallback buffer)
  | some json_str =>
    match json_loads json_str with
    | .error _ => .ok (.fallback buffer)
    | .ok plan => route_plan buffer plan

/-! Embedding of `agents/search_agent.py`. -/

/-- The `question_words` list of `SearchAgent._simplify_query`. -/
def question_words : List String := ["what is", "who is", "tell me about", "information about"]

/-- `SearchAgent._simplify_query` (lines 272-289): lower-case and strip,
strip each of the question prefixes in turn when the current string starts
with it, then strip one trailing question mark. -/
def simplify_query (query : String) : String :=
  let cleaned := pyLower (pyStrip query)
  let cleaned := question_words.foldl
    (fun acc qw => if pyStartsWith acc qw then pyStrip (pyDrop acc (pyLen qw)) else acc) cleaned
  if pyEndsWith cleaned "?" then pyStrip (pyDropLast cleaned) else cleaned

/-- Lines 233-240 of `search_agent.py`: keyword-derived "specific requests"
hints for the summarization prompt. -/
def specificRequests (original_query : String) : List String :=
  let query_lower := pyLower original_query
  (if ["born", "birth", "birthday"].any (fun w => pyContains w query_lower) then
    ["birth date"] else [])
  ++ (if ["married", "marriage", "wife", "spouse"].any (fun w => pyContains w query_lower) then
    ["marriage information"] else [])
  ++ (if ["who is", "about", "biography"].any (fun w => pyContains w query_lower) then
    ["general biography"] else [])

/-- The summarization prompt f-string of lines 242-257, with the original
query and the combined sources block interpolated. -/
def mkPrompt (original_query sources_text : String) : String :=
  let specific_requests := specificRequests original_query
  "You are answering the user\x27s question: \"" ++ original_query ++ "\"\n\n"
  ++ "Based on the factual information provided below, answer the user\x27s specific questions comprehensively.\n\n"
  ++ "The user is asking for: "
  ++ (if specific_requests ≠ [] then pyJoin ", " specific_requests else "general information")
  ++ "\n\nIMPORTANT INSTRUCTIONS:\n"
  ++ "- If the user asks about birth/birthday, look for and include birth date information\n"
  ++ "- If the user asks about marriage/married, look for and include marriage/spouse information  \n"
  ++ "- If the user asks \"who is\", provide a comprehensive biography\n"
  ++ "- Include specific dates, names, and details when available\n"
  ++ "- If some requested information is not available in the sources, mention that clearly\n\n"
  ++ sources_text
  ++ "\n\nNow provide a complete answer to \"" ++ original_query
  ++ "\" that addresses all parts of the user\x27s question:"

/-- `SearchAgent._summarize_with_llm` (lines 218-270).  `aask` is the opaque
LLM collaborator `self.model_client.aask`; the second component of the result
is the trace of prompts passed to it.  On an `aask` exception the raw
labelled source texts are concatenated instead of failing. -/
def summarize_with_llm (aask : String → Except Unit String)
    (ddg_text wiki_text original_query : String) : String × List String :=
  let sources_text :=
    (if ddg_text ≠ "" then "Source 1 (DuckDuckGo):\n" ++ ddg_text ++ "\n\n" else "")
    ++ (if wiki_text ≠ "" then "Source 2 (Wikipedia):\n" ++ wiki_text ++ "\n\n" else "")
  if pyStrip sources_text = "" then ("No information available from search sources.", [])
  else
    let prompt := mkPrompt original_query sources_text
    match aask prompt with
    | .ok response => (pyStrip response, [prompt])
    | .error _ =>
      let fallback_content :=
        (if ddg_text ≠ "" then ["DuckDuckGo: " ++ ddg_text] else [])
        ++ (if wiki_text ≠ "" then ["Wikipedia: " ++ wiki_text] else [])
      (if fallback_content ≠ [] then pyJoin "\n\n" fallback_content
       else "❌ Both search and summarization failed.", [prompt])

/-- The two source collaborators of the search fan-out.  Applying a field to
a query models awaiting that source's coroutine on that query;
`Except.error ()` is an exception reaching `asyncio.gather`. -/
structure SearchEnv where
  ddg : String → Except Unit String
  wiki : String → Except Unit String

/-- `SearchAgent._run_parallel_searches` (lines 58-63):
`asyncio.gather(..., return_exceptions=True)` runs both calls to completion
-- one call's failure never cancels the other -- and returns both outcomes
in argument order, exceptions delivered as values. -/
def run_parallel_searches (env : SearchEnv) (ddg_query wiki_query : String) :
    Except Unit String × Except Unit String :=
  (env.ddg ddg_query, env.wiki wiki_query)

/-- `SearchAgent.search` (lines 29-56): normalize the query, fan out to both
sources (DuckDuckGo with the cleaned query, Wikipedia with the original
query), coerce per-source exceptions to the empty string, answer with the
fixed no-information message when both texts are empty, otherwise summarize.
The second component is the summarizer-prompt trace. -/
def search (env : SearchEnv) (aask : String → Except Unit String) (query : String) :
    String × List String :=
  let cleaned_query := simplify_query query
  let results := run_parallel_searches env cleaned_query query
  let ddg_result := match results.1 with | .error _ => "" | .ok s => s
  let wiki_result := match results.2 with | .error _ => "" | .ok s => s
  if ddg_result = "" ∧ wiki_result = "" then
    ("ℹ️ No useful information found for \"" ++ query ++ "\" from either DuckDuckGo or Wikipedia.", [])
  else
    let p := summarize_with_llm aask ddg_result wiki_result query
    ("📘 Summary:\n" ++ p.1, p.2)

/-! Embedding of `SearchAgent._search_wikipedia` (lines 116-216).  Each of
the three endpoint strategies performs one HTTP-and-decode step, modelled as
an `Except Unit` response: `Except.error ()` is any exception inside that
strategy's `try` block (transport error, timeout, JSON decode failure), which
the code catches and answers by moving on to the next strategy.  The two
`action=query` endpoints answer with a status code and the `pages` mapping
(page id, and the `extract` field when present, in dict order); the REST
endpoints answer with a status code and the value of `data.get("extract",
"")`.  `sessionOk = false` models a failure of session construction itself,
caught by the outermost handler (line 214) which returns the empty string. -/

structure WikiEnv where
  sessionOk : Bool
  extract : Except Unit (Nat × List (String × Option String))
  sections : Except Unit (Nat × List (String × Option String))
  rest : Except Unit (Nat × String)
  restOrig : Except Unit (Nat × String)

/-- Acceptance test of strategy 1 (line 151): non-empty, longer than 100
characters, and free of the disambiguation marker. -/
def accept1 (c : String) : Bool :=
  decide (c ≠ "" ∧ 100 < pyLen c ∧ pyContains "may refer to:" (pyLower c) = false)

/-- Acceptance test of strategy 2 (line 177): non-empty and longer than 100
characters -- no disambiguation check. -/
def accept2 (c : String) : Bool :=
  decide (c ≠ "" ∧ 100 < pyLen c)

/-- The `for page_id, page_data in pages.items()` loop of strategies 1 and 2:
return the first stripped extract of a real page (id not `"-1"`, `extract`
field present) passing `accept`; keep scanning otherwise. -/
def pagesLoop (accept : String → Bool) : List (String × Option String) → Option String
  | [] => none
  | (page_id, oe) :: rest =>
    match oe with
    | some e =>
      if page_id ≠ "-1" then
        let content := pyStrip e
        if accept content then some content else pagesLoop accept rest
      else pagesLoop accept rest
    | none => pagesLoop accept rest

/-- `SearchAgent._search_wikipedia`, direct translation.  The sequential
fall-through of the three `try` blocks is rendered by binding the later
stages first (`afterMethod2` is what runs once strategies 1 and 2 have
yielded nothing). -/
def search_wikipedia (env : WikiEnv) (query : String) : String :=
  let clean_query := pyStrip (pyReplace query " biography" "")
  if env.sessionOk then
    let afterMethod2 : String :=
      match env.rest with
      | .error _ => ""
      | .ok (status, ext) =>
        if status = 200 then
          let content := pyStrip ext
          if content ≠ "" ∧ pyContains "may refer to:" (pyLower content) = false then content
          else ""
        else if status = 404 ∧ clean_query ≠ query then
          match env.restOrig with
          | .error _ => ""
          | .ok (st2, ext2) =>
            if st2 = 200 then (if pyStrip ext2 ≠ "" then pyStrip ext2 else "") else ""
        else ""
    let afterMethod1 : String :=
      match env.sections with
      | .error _ => afterMethod2
      | .ok (status, pages) =>
        if status = 200 then
          match pagesLoop accept2 pages with
          | some c => c
          | none => afterMethod2
        else afterMethod2
    match env.extract with
    | .error _ => afterMethod1
    | .ok (status, pages) =>
      if status = 200 then
        match pagesLoop accept1 pages with
        | some c => c
        | none => afterMethod1
      else afterMethod1
  else ""

/-- What strategy 1 (full extract, lines 130-155) accepts on its own. -/
def method1Result (env : WikiEnv) : Option String :=
  match env.extract with
  | .error _ => none
  | .ok (status, pages) => if status = 200 then pagesLoop accept1 pages else none

/-- What strategy 2 (extended extract, lines 157-181) accepts on its own. -/
def method2Result (env : WikiEnv) : Option String :=
  match env.sections with
  | .error _ => none
  | .ok (status, pages) => if status = 200 then pagesLoop accept2 pages else none

/-- What strategy 3 (REST summary, lines 183-210) accepts on its own,
including its 404 fallback to the unmodified query. -/
def method3Result (env : WikiEnv) (query : String) : Option String :=
  let clean_query := pyStrip (pyReplace query " biography" "")
  match env.rest with
  | .error _ => none
  | .ok (status, ext) =>
    if status = 200 then
      let content := pyStrip ext
      if content ≠ "" ∧ pyContains "may refer to:" (pyLower content) = false then some content
      else none
    else if status = 404 ∧ clean_query ≠ query then
      match env.restOrig with
      | .error _ => none
      | .ok (st2, ext2) =>
        if st2 = 200 then (if pyStrip ext2 ≠ "" then some (pyStrip ext2) else none) else none
    else none

/-! General lemmas about the string models, shared by several claims. -/

/-- Characters of an appended string. -/
theorem data_append (a b : String) : (a ++ b).data = a.data ++ b.data := by
  cases a
  cases b
  rfl

/-- Appending the empty string on the right is the identity. -/
theorem append_empty_str (s : String) : s ++ "" = s := by
  cases s with
  | mk l =>
    show String.mk (l ++ []) = String.mk l
    rw [List.append_nil]

/-- Appending the empty string on the left is the identity. -/
theorem empty_append_str (s : String) : "" ++ s = s := by
  cases s with
  | mk l =>
    show String.mk ([] ++ l) = String.mk l
    rw [List.nil_append]

/-- A string with a non-empty left part is non-empty. -/
theorem append_ne_empty_left (a b : String) (h : a ≠ "") : a ++ b ≠ "" := by
  intro hc
  apply h
  cases a with
  | mk l1 =>
    cases b with
    | mk l2 =>
      have hd : l1 ++ l2 = [] := congrArg String.data hc
      have : l1 = [] := (List.append_eq_nil.mp hd).1
      rw [this]

/-- `pyStrip` erases a string exactly when all its characters are spaces. -/
theorem pyStrip_eq_empty_iff (s : String) :
    pyStrip s = "" ↔ ∀ c ∈ s.data, pyIsSpace c = true := by
  constructor
  · intro h c hc
    have hdata : ((s.data.dropWhile pyIsSpace).reverse.dropWhile pyIsSpace).reverse = [] :=
      congrArg String.data h
    rw [List.reverse_eq_nil_iff] at hdata
    have hall := List.dropWhile_eq_nil_iff.mp hdata
    rcases List.mem_append.mp
        ((List.takeWhile_append_dropWhile (p := pyIsSpace) (l := s.data)) ▸ hc) with h1 | h2
    · exact List.mem_takeWhile_imp h1
    · exact hall c (List.mem_reverse.mpr h2)
  · intro h
    have h1 : s.data.dropWhile pyIsSpace = [] :=
      List.dropWhile_eq_nil_iff.mpr (fun x hx => h x hx)
    unfold pyStrip
    rw [h1]
    rfl

/-! Claim C5: query normalization. -/

/-- Claim C5: `_simplify_query` lower-cases and trims its input (it depends
on the input only through the trimmed, lower-cased text), strips the leading
interrogative phrases and one trailing question mark as the question-word
loop dictates, leaves a trimmed lower-case query with no matching prefix and
no trailing question mark unchanged, and maps the two specification examples
to `"closure"` and `"ada lovelace"`.  As a Lean function it is pure and
deterministic by construction. -/
theorem simplify_query_spec :
    simplify_query "What is closure?" = "closure"
    ∧ simplify_query "  Who Is Ada Lovelace " = "ada lovelace"
    ∧ (∀ q1 q2 : String, pyLower (pyStrip q1) = pyLower (pyStrip q2) →
        simplify_query q1 = simplify_query q2)
    ∧ (∀ s : String, pyLower (pyStrip s) = s →
        (∀ qw ∈ question_words, pyStartsWith s qw = false) →
        pyEndsWith s "?" = false →
        simplify_query s = s) := by
  refine ⟨by decide, by decide, ?_, ?_⟩
  · intro q1 q2 h
    simp only [simplify_query, h]
  · intro s hs hqw hq
    have h1 := hqw "what is" (by simp [question_words])
    have h2 := hqw "who is" (by simp [question_words])
    have h3 := hqw "tell me about" (by simp [question_words])
    have h4 := hqw "information about" (by simp [question_words])
    simp only [simplify_query, question_words, List.foldl, hs, h1, h2, h3, h4,
      Bool.false_eq_true, if_false, hq]

/-- Witness for C5: the fourth clause applied at the concrete canonical query
`"turing machine"`, all hypotheses discharged by evaluation. -/
theorem simplify_query_spec_witness :
    pyLower (pyStrip "turing machine") = "turing machine"
    ∧ simplify_query "turing machine" = "turing machine" :=
  ⟨by decide, simplify_query_spec.2.2.2 "turing machine" (by decide) (by decide) (by decide)⟩

/-- Equality of modelled call outcomes is decidable. -/
instance instDecEqExceptModel {ε α : Type} [DecidableEq ε] [DecidableEq α] :
    DecidableEq (Except ε α) := fun a b =>
  match a, b with
  | .error e1, .error e2 =>
    if h : e1 = e2 then isTrue (h ▸ rfl) else isFalse (fun hc => h (Except.error.inj hc))
  | .ok a1, .ok a2 =>
    if h : a1 = a2 then isTrue (h ▸ rfl) else isFalse (fun hc => h (Except.ok.inj hc))
  | .error _, .ok _ => isFalse (fun hc => Except.noConfusion hc)
  | .ok _, .error _ => isFalse (fun hc => Except.noConfusion hc)

/-! Claim C6: api-prefix sub-routing. -/

/-- Claim C6: for a directive decoded with `agent = "api"` and a string task,
a task whose stripped text starts (case-insensitively) with `"weather:"` is
routed to the weather lookup with the city being the text after the first
colon, trimmed; a task starting with none of the three prefixes goes to the
api capability as a general query; and on the concrete directive
`agent api, task "weather: Tokyo, Japan"` the weather lookup receives the
city `"Tokyo, Japan"`. -/
theorem api_prefix_routing :
    (∀ buffer js fields t, extract_json buffer = some js →
      json_loads js = .ok (.jobj fields) →
      dictGet fields "agent" = some (.jstr "api") →
      dictGet fields "task" = some (.jstr t) →
      (pyStartsWith (pyLower (pyStrip t)) "weather:" = true →
        process_request_route buffer = .ok (.weather (pyStrip (afterFirstColon (pyStrip t)))))
      ∧ (pyStartsWith (pyLower (pyStrip t)) "weather:" = false →
        pyStartsWith (pyLower (pyStrip t)) "news:" = false →
        pyStartsWith (pyLower (pyStrip t)) "stock:" = false →
        process_request_route buffer = .ok (.agentTask "api" (pyStrip t))))
    ∧ process_request_route "\x7b\"agent\":\"api\",\"task\":\"weather: Tokyo, Japan\"\x7d"
        = .ok (.weather "Tokyo, Japan") := by
  constructor
  · intro buffer js fields t hx hl ha ht
    constructor
    · intro hw
      simp [process_request_route, hx, hl, route_plan, ht, ha, AGENTS_keys, hw]
    · intro hw hn hs
      simp [process_request_route, hx, hl, route_plan, ht, ha, AGENTS_keys, hw, hn, hs]
  · rfl

/-- Witness for C6: the weather clause applied at a concrete buffer with an
upper-case prefix. -/
theorem api_prefix_routing_witness :
    process_request_route "\x7b\"agent\": \"api\", \"task\": \"WEATHER: Delhi\"\x7d"
      = .ok (.weather "Delhi") := by
  have h := (api_prefix_routing.1 "\x7b\"agent\": \"api\", \"task\": \"WEATHER: Delhi\"\x7d"
    "\x7b\"agent\": \"api\", \"task\": \"WEATHER: Delhi\"\x7d"
    [("agent", .jstr "api"), ("task", .jstr "WEATHER: Delhi")] "WEATHER: Delhi"
    (by decide) rfl rfl rfl).1 (by decide)
  exact h.trans rfl

/-! Claim C10: a registered agent with a missing task field routes with an
empty task. -/

/-- Claim C10: a decoded object whose `agent` is a registered non-planner key
and which has no `task` field does not fall back: `task` defaults to the
empty string and the directive is routed (search gets query `""`, the api
key falls through the prefix checks to a general api query, any other key
goes to its agent with task `""`). -/
theorem missing_task_routes_empty :
    ∀ buffer js fields k, extract_json buffer = some js →
      json_loads js = .ok (.jobj fields) →
      dictGet fields "agent" = some (.jstr k) →
      k ∈ AGENTS_keys → k ≠ "planner" →
      dictGet fields "task" = none →
      process_request_route buffer =
        .ok (if k = "api" then .agentTask "api" ""
          else if k = "search" then .searchTask ""
          else .agentTask k "") := by
  intro buffer js fields k hx hl ha hk hkp ht
  simp only [process_request_route, hx, hl, route_plan, ht, Option.getD, ha]
  rw [if_pos ⟨hk, hkp⟩]
  by_cases hapi : k = "api"
  · subst hapi
    rw [if_pos rfl, if_pos rfl]
    rfl
  · rw [if_neg hapi, if_neg hapi]
    by_cases hse : k = "search"
    · subst hse
      rw [if_pos rfl, if_pos rfl]
      rfl
    · rw [if_neg hse, if_neg hse]
      rw [show pyStrip "" = "" from rfl]

/-- Witness for C10: the concrete planner buffer containing only
`agent search` routes to the search capability with the empty query. -/
theorem missing_task_routes_empty_witness :
    process_request_route "\x7b\"agent\": \"search\"\x7d" = .ok (.searchTask "") := by
  have h := missing_task_routes_empty "\x7b\"agent\": \"search\"\x7d"
    "\x7b\"agent\": \"search\"\x7d" [("agent", .jstr "search")] "search"
    (by decide) rfl rfl (by decide) (by decide) rfl
  exact h.trans rfl

/-! Claim C1: parse failures fall back to returning the planner buffer. -/

/-- The decoded `task` field, if present, is a string -- otherwise line 126's
`.strip()` raises `AttributeError`. -/
def taskFieldClean (fields : List (String × JVal)) : Prop :=
  match dictGet fields "task" with
  | none => True
  | some (.jstr _) => True
  | _ => False

/-- The decoded `agent` value does not name a registered non-planner
capability (and is hashable, so the membership test itself cannot raise). -/
def agentNotRoutable (fields : List (String × JVal)) : Prop :=
  match dictGet fields "agent" with
  | some (.jstr k) => k ∉ AGENTS_keys ∨ k = "planner"
  | some (.jarr _) => False
  | some (.jobj _) => False
  | _ => True

/-- Routing a decoded object with a clean task field and an unroutable agent
returns the buffer unchanged. -/
theorem route_plan_fallback (buffer : String) (fields : List (String × JVal))
    (htask : taskFieldClean fields) (hagent : agentNotRoutable fields) :
    route_plan buffer (.jobj fields) = .ok (.fallback buffer) := by
  unfold taskFieldClean at htask
  unfold agentNotRoutable at hagent
  unfold route_plan
  rcases htv : dictGet fields "task" with _ | tv
  · rw [htv] at htask
    simp only [htv, Option.getD]
    rcases hav : dictGet fields "agent" with _ | av
    · simp [hav]
    · rw [hav] at hagent
      cases av with
      | jstr k =>
        simp only [hav]
        rw [if_neg]
        intro hc
        rcases hagent with hmem | hpl
        · exact hmem hc.1
        · exact hc.2 hpl
      | jnull => simp [hav]
      | jbool b => simp [hav]
      | jnum n => simp [hav]
      | jarr l => exact absurd hagent not_false
      | jobj l => exact absurd hagent not_false
  · rw [htv] at htask
    cases tv with
    | jstr s =>
      simp only [htv, Option.getD]
      rcases hav : dictGet fields "agent" with _ | av
      · simp [hav]
      · rw [hav] at hagent
        cases av with
        | jstr k =>
          simp only [hav]
          rw [if_neg]
          intro hc
          rcases hagent with hmem | hpl
          · exact hmem hc.1
          · exact hc.2 hpl
        | jnull => simp [hav]
        | jbool b => simp [hav]
        | jnum n => simp [hav]
        | jarr l => exact absurd hagent not_false
        | jobj l => exact absurd hagent not_false
    | jnull => exact absurd htask not_false
    | jbool b => exact absurd htask not_false
    | jnum n => exact absurd htask not_false
    | jarr l => exact absurd htask not_false
    | jobj l => exact absurd htask not_false

/-- Claim C1 (amended): a planner buffer with no balanced brace pair, a JSON
decode error on the extracted brace substring, or a decoded object whose
agent value is not a registered non-planner string key (absent, null,
boolean, number, unregistered, or `"planner"`) makes `process_request`
return the buffer exactly as produced by the planning step with no
exception -- provided the decoded `task` field, when present, is a string,
and the decoded agent value is not a JSON array or object.  (Without those
provisos the claim fails: see the counterexample.) -/
theorem parse_failure_falls_back :
    ∀ buffer : String,
      (extract_json buffer = none
        ∨ (∃ js, extract_json buffer = some js ∧ json_loads js = .error ())
        ∨ (∃ js fields, extract_json buffer = some js
            ∧ json_loads js = .ok (.jobj fields)
            ∧ taskFieldClean fields ∧ agentNotRoutable fields)) →
      process_request_route buffer = .ok (.fallback buffer) := by
  intro buffer h
  rcases h with h | ⟨js, hx, hl⟩ | ⟨js, fields, hx, hl, htask, hagent⟩
  · simp [process_request_route, h]
  · simp [process_request_route, hx, hl]
  · simp only [process_request_route, hx, hl]
    exact route_plan_fallback buffer fields htask hagent

/-- Claim C1 counterexample: the claim as frozen is false on the code.  A
buffer whose brace substring decodes without the two string fields can still
route (`agent search` with no task routes to the search capability instead
of returning the buffer); a decoded non-string task raises an uncaught
`AttributeError`; and a decoded unhashable agent value raises an uncaught
`TypeError` -- the last two are exceptions surfaced to the caller, not
fallbacks. -/
theorem parse_failure_falls_back_cex :
    process_request_route "\x7b\"agent\": \"search\"\x7d" = .ok (.searchTask "")
    ∧ process_request_route "\x7b\"agent\": \"search\"\x7d"
        ≠ .ok (.fallback "\x7b\"agent\": \"search\"\x7d")
    ∧ process_request_route "\x7b\"agent\": \"x\", \"task\": 1\x7d" = .error .attributeError
    ∧ process_request_route "\x7b\"agent\": [], \"task\": \"x\"\x7d" = .error .typeError :=
  ⟨rfl, by decide, rfl, rfl⟩

/-- Witness for C1: the amended theorem applied to the concrete buffer
carrying an unregistered agent key. -/
theorem parse_failure_falls_back_witness :
    process_request_route "\x7b\"agent\": \"unknown\", \"task\": \"x\"\x7d"
      = .ok (.fallback "\x7b\"agent\": \"unknown\", \"task\": \"x\"\x7d") :=
  parse_failure_falls_back "\x7b\"agent\": \"unknown\", \"task\": \"x\"\x7d"
    (Or.inr (Or.inr ⟨"\x7b\"agent\": \"unknown\", \"task\": \"x\"\x7d",
      [("agent", .jstr "unknown"), ("task", .jstr "x")], by decide, rfl,
      trivial, Or.inl (by decide)⟩))

/-! Claims about `SearchAgent.search` and `_summarize_with_llm`. -/

/-- If at least one source text is non-empty, the combined sources block does
not strip to the empty string (it contains the letter `S` of a label). -/
theorem sources_text_strip_ne (dt wt : String) (h : ¬(dt = "" ∧ wt = "")) :
    pyStrip ((if dt ≠ "" then "Source 1 (DuckDuckGo):\n" ++ dt ++ "\n\n" else "")
      ++ (if wt ≠ "" then "Source 2 (Wikipedia):\n" ++ wt ++ "\n\n" else "")) ≠ "" := by
  intro hstrip
  have hall := (pyStrip_eq_empty_iff _).mp hstrip
  have hmem : 'S' ∈ ((if dt ≠ "" then "Source 1 (DuckDuckGo):\n" ++ dt ++ "\n\n" else "")
      ++ (if wt ≠ "" then "Source 2 (Wikipedia):\n" ++ wt ++ "\n\n" else "")).data := by
    rw [data_append]
    rcases not_and_or.mp h with hd | hw
    · apply List.mem_append.mpr
      left
      rw [if_pos hd, data_append, data_append]
      exact List.mem_append.mpr (Or.inl (List.mem_append.mpr (Or.inl (by decide))))
    · apply List.mem_append.mpr
      right
      rw [if_pos hw, data_append, data_append]
      exact List.mem_append.mpr (Or.inl (List.mem_append.mpr (Or.inl (by decide))))
  exact absurd (hall 'S' hmem) (by decide)

/-- Claim C2: an exception from one source call is isolated -- its text is
coerced to the empty string while the sibling call's outcome is still
consumed -- and when the surviving source's text is non-empty, `search`
proceeds to summarization over that surviving text (the summarizer trace is
non-empty).  The per-call timeout itself is real-time behaviour; its
observable effect at this level is the exception outcome modelled here. -/
theorem source_failure_isolated :
    ∀ (env : SearchEnv) (aask : String → Except Unit String) (q t : String), t ≠ "" →
      ((env.ddg (simplify_query q) = .error () → env.wiki q = .ok t →
        search env aask q =
          ("📘 Summary:\n" ++ (summarize_with_llm aask "" t q).1,
            (summarize_with_llm aask "" t q).2)
        ∧ (summarize_with_llm aask "" t q).2 ≠ [])
      ∧ (env.wiki q = .error () → env.ddg (simplify_query q) = .ok t →
        search env aask q =
          ("📘 Summary:\n" ++ (summarize_with_llm aask t "" q).1,
            (summarize_with_llm aask t "" q).2)
        ∧ (summarize_with_llm aask t "" q).2 ≠ [])) := by
  intro env aask q t ht
  constructor
  · intro hd hw
    constructor
    · simp only [search, run_parallel_searches, hd, hw]
      rw [if_neg (fun hc => ht hc.2)]
    · simp only [summarize_with_llm]
      rw [if_neg (sources_text_strip_ne "" t (fun hc => ht hc.2))]
      cases aask (mkPrompt q ((if ("" : String) ≠ "" then "Source 1 (DuckDuckGo):\n" ++ "" ++ "\n\n" else "")
        ++ (if t ≠ "" then "Source 2 (Wikipedia):\n" ++ t ++ "\n\n" else ""))) <;> simp
  · intro hw hd
    constructor
    · simp only [search, run_parallel_searches, hd, hw]
      rw [if_neg (fun hc => ht hc.1)]
    · simp only [summarize_with_llm]
      rw [if_neg (sources_text_strip_ne t "" (fun hc => ht hc.1))]
      cases aask (mkPrompt q ((if t ≠ "" then "Source 1 (DuckDuckGo):\n" ++ t ++ "\n\n" else "")
        ++ (if ("" : String) ≠ "" then "Source 2 (Wikipedia):\n" ++ "" ++ "\n\n" else ""))) <;> simp

/-- Witness for C2: a failing DuckDuckGo call next to a Wikipedia call that
returns text; the summarizer is reached. -/
theorem source_failure_isolated_witness :
    (search ⟨fun _ => .error (), fun _ => .ok "Turing was a mathematician."⟩
      (fun _ => .ok "He was a pioneer.") "Who is Alan Turing?").2 ≠ [] := by
  have h := ((source_failure_isolated
    ⟨fun _ => .error (), fun _ => .ok "Turing was a mathematician."⟩
    (fun _ => .ok "He was a pioneer.") "Who is Alan Turing?"
    "Turing was a mathematician." (by decide)).1 rfl rfl)
  rw [h.1]
  exact h.2

/-- Claim C3 (amended): when both source outcomes carry no text (exception
or empty string), `search` returns the fixed no-information message -- which
the code prefixes with `"ℹ️ "` -- naming the original pre-normalization
query and both sources, and the summarizer is never invoked (empty trace). -/
theorem no_info_message :
    ∀ (env : SearchEnv) (aask : String → Except Unit String) (q : String),
      (env.ddg (simplify_query q) = .error () ∨ env.ddg (simplify_query q) = .ok "") →
      (env.wiki q = .error () ∨ env.wiki q = .ok "") →
      search env aask q =
        ("ℹ️ No useful information found for \"" ++ q
          ++ "\" from either DuckDuckGo or Wikipedia.", []) := by
  intro env aask q h1 h2
  rcases h1 with h1 | h1 <;> rcases h2 with h2 | h2 <;>
    simp [search, run_parallel_searches, h1, h2]

/-- Claim C3 counterexample: on the spec's own example query the returned
message carries the `"ℹ️ "` prefix, so it is not exactly the literal the
claim states. -/
theorem no_info_message_cex :
    (search ⟨fun _ => .error (), fun _ => .error ()⟩ (fun _ => .ok "") "Who is Alan Turing?").1
      = "ℹ️ No useful information found for \"Who is Alan Turing?\" from either DuckDuckGo or Wikipedia."
    ∧ (search ⟨fun _ => .error (), fun _ => .error ()⟩ (fun _ => .ok "") "Who is Alan Turing?").1
      ≠ "No useful information found for \"Who is Alan Turing?\" from either DuckDuckGo or Wikipedia." :=
  ⟨rfl, by decide⟩

/-- Witness for C3: the amended theorem applied to concrete failing sources;
the trace component is empty, so the summarizer was never invoked. -/
theorem no_info_message_witness :
    search ⟨fun _ => .error (), fun _ => .ok ""⟩ (fun _ => .ok "unused") "Who is Alan Turing?"
      = ("ℹ️ No useful information found for \"Who is Alan Turing?\" from either DuckDuckGo or Wikipedia.", []) := by
  have h := no_info_message ⟨fun _ => .error (), fun _ => .ok ""⟩ (fun _ => .ok "unused")
    "Who is Alan Turing?" (Or.inl rfl) (Or.inr rfl)
  exact h.trans (by rw [show ("ℹ️ No useful information found for \"" ++ "Who is Alan Turing?"
    ++ "\" from either DuckDuckGo or Wikipedia.") =
    "ℹ️ No useful information found for \"Who is Alan Turing?\" from either DuckDuckGo or Wikipedia." from rfl])

/-- The raw labelled concatenation of the non-empty source texts, as the
spec words the summarizer-failure fallback (each non-empty source labelled
by its name, blocks separated by a blank line). -/
def rawLabeledConcat (ddg_text wiki_text : String) : String :=
  pyJoin "\n\n" ((if ddg_text ≠ "" then ["DuckDuckGo: " ++ ddg_text] else [])
    ++ (if wiki_text ≠ "" then ["Wikipedia: " ++ wiki_text] else []))

/-- Claim C4 (amended): if the summarizer collaborator raises while at least
one source text is non-empty, `search` does not fail and does not produce an
error message: it returns the raw labelled concatenation of the non-empty
source texts -- wrapped, like every summarized answer, in the fixed
`"📘 Summary:\n"` prefix that line 56 adds. -/
theorem summarizer_failure_fallback :
    ∀ (env : SearchEnv) (aask : String → Except Unit String) (q dt wt : String),
      env.ddg (simplify_query q) = .ok dt → env.wiki q = .ok wt →
      ¬(dt = "" ∧ wt = "") →
      (∀ p, aask p = .error ()) →
      (search env aask q).1 = "📘 Summary:\n" ++ rawLabeledConcat dt wt := by
  intro env aask q dt wt hd hw hne haask
  simp only [search, run_parallel_searches, hd, hw]
  rw [if_neg hne]
  simp only [summarize_with_llm]
  rw [if_neg (sources_text_strip_ne dt wt hne)]
  rw [haask]
  have hfb : ((if dt ≠ "" then ["DuckDuckGo: " ++ dt] else [])
      ++ (if wt ≠ "" then ["Wikipedia: " ++ wt] else [])) ≠ [] := by
    rcases not_and_or.mp hne with h | h
    · rw [if_pos h]
      simp
    · rw [if_pos h]
      simp
  rw [if_pos hfb]
  rfl

/-- Claim C4 counterexample: with one non-empty source and a failing
summarizer the returned text is the labelled concatenation with the
`"📘 Summary:\n"` prefix, not the bare concatenation the claim states. -/
theorem summarizer_failure_fallback_cex :
    (search ⟨fun _ => .ok "a", fun _ => .error ()⟩ (fun _ => .error ()) "q").1
      = "📘 Summary:\nDuckDuckGo: a"
    ∧ (search ⟨fun _ => .ok "a", fun _ => .error ()⟩ (fun _ => .error ()) "q").1
      ≠ "DuckDuckGo: a" :=
  ⟨rfl, by decide⟩

/-- Witness for C4: the amended theorem applied to two concrete non-empty
sources and an always-raising summarizer. -/
theorem summarizer_failure_fallback_witness :
    (search ⟨fun _ => .ok "fact one", fun _ => .ok "fact two"⟩ (fun _ => .error ()) "topic").1
      = "📘 Summary:\nDuckDuckGo: fact one\n\nWikipedia: fact two" := by
  have h := summarizer_failure_fallback ⟨fun _ => .ok "fact one", fun _ => .ok "fact two"⟩
    (fun _ => .error ()) "topic" "fact one" "fact two" rfl rfl (by decide) (fun p => rfl)
  exact h.trans (by decide)

/-- Claim C8: the summarizer prompt contains a labelled block for a source
exactly when that source's text is non-empty: one surviving source yields a
prompt with exactly that one block, two yield both blocks in order (and the
empty-source block is absent), as shown by the prompt trace of `search`. -/
theorem prompt_source_blocks :
    ∀ (env : SearchEnv) (aask : String → Except Unit String) (q dt wt : String),
      env.ddg (simplify_query q) = .ok dt → env.wiki q = .ok wt →
      ((dt ≠ "" → wt = "" →
        (search env aask q).2 = [mkPrompt q ("Source 1 (DuckDuckGo):\n" ++ dt ++ "\n\n")])
      ∧ (dt = "" → wt ≠ "" →
        (search env aask q).2 = [mkPrompt q ("Source 2 (Wikipedia):\n" ++ wt ++ "\n\n")])
      ∧ (dt ≠ "" → wt ≠ "" →
        (search env aask q).2 = [mkPrompt q (("Source 1 (DuckDuckGo):\n" ++ dt ++ "\n\n")
          ++ ("Source 2 (Wikipedia):\n" ++ wt ++ "\n\n"))])) := by
  intro env aask q dt wt hd hw
  refine ⟨?_, ?_, ?_⟩
  · intro hd' hw'
    subst hw'
    simp only [search, run_parallel_searches, hd, hw]
    rw [if_neg (fun hc => hd' hc.1)]
    simp only [summarize_with_llm]
    rw [if_neg (sources_text_strip_ne dt "" (fun hc => hd' hc.1))]
    rw [if_pos hd', if_neg (fun hc : ("" : String) ≠ "" => hc rfl), append_empty_str]
    cases aask (mkPrompt q ("Source 1 (DuckDuckGo):\n" ++ dt ++ "\n\n")) <;> simp
  · intro hd' hw'
    subst hd'
    simp only [search, run_parallel_searches, hd, hw]
    rw [if_neg (fun hc => hw' hc.2)]
    simp only [summarize_with_llm]
    rw [if_neg (sources_text_strip_ne "" wt (fun hc => hw' hc.2))]
    rw [if_neg (fun hc : ("" : String) ≠ "" => hc rfl), if_pos hw', empty_append_str]
    cases aask (mkPrompt q ("Source 2 (Wikipedia):\n" ++ wt ++ "\n\n")) <;> simp
  · intro hd' hw'
    simp only [search, run_parallel_searches, hd, hw]
    rw [if_neg (fun hc => hd' hc.1)]
    simp only [summarize_with_llm]
    rw [if_neg (sources_text_strip_ne dt wt (fun hc => hd' hc.1))]
    rw [if_pos hd', if_pos hw']
    cases aask (mkPrompt q (("Source 1 (DuckDuckGo):\n" ++ dt ++ "\n\n")
      ++ ("Source 2 (Wikipedia):\n" ++ wt ++ "\n\n"))) <;> simp

/-- Witness for C8: only Wikipedia survives; the traced prompt carries
exactly the Wikipedia block. -/
theorem prompt_source_blocks_witness :
    (search ⟨fun _ => .ok "", fun _ => .ok "Ada Lovelace was a mathematician."⟩
      (fun _ => .ok "summary") "Ada Lovelace").2
      = [mkPrompt "Ada Lovelace"
          ("Source 2 (Wikipedia):\n" ++ "Ada Lovelace was a mathematician." ++ "\n\n")] :=
  (prompt_source_blocks ⟨fun _ => .ok "", fun _ => .ok "Ada Lovelace was a mathematician."⟩
    (fun _ => .ok "summary") "Ada Lovelace" "" "Ada Lovelace was a mathematician."
    rfl rfl).2.1 rfl (by decide)

/-- Claim C9: the concurrent fan-out consults the DuckDuckGo source only at
the normalized `cleaned_query` and the Wikipedia source only at the original
unnormalized `query`: the result of `search` is invariant under changing the
sources anywhere else, and with probe sources that echo their argument the
summarization inputs are exactly `cleaned_query` and `query`. -/
theorem fanout_query_usage :
    (∀ (e1 e2 : SearchEnv) (aask : String → Except Unit String) (q : String),
      e1.ddg (simplify_query q) = e2.ddg (simplify_query q) →
      e1.wiki q = e2.wiki q →
      search e1 aask q = search e2 aask q)
    ∧ (∀ (aask : String → Except Unit String) (q : String),
      search ⟨fun s => .ok ("DDG got: " ++ s), fun s => .ok ("WIKI got: " ++ s)⟩ aask q
        = ("📘 Summary:\n"
            ++ (summarize_with_llm aask ("DDG got: " ++ simplify_query q) ("WIKI got: " ++ q) q).1,
          (summarize_with_llm aask ("DDG got: " ++ simplify_query q) ("WIKI got: " ++ q) q).2)) := by
  constructor
  · intro e1 e2 aask q h1 h2
    simp only [search, run_parallel_searches, h1, h2]
  · intro aask q
    simp only [search, run_parallel_searches]
    rw [if_neg (fun hc => append_ne_empty_left "DDG got: " (simplify_query q) (by decide) hc.1)]

/-- Witness for C9: two source environments that agree only at the points
`search` actually consults (cleaned query for DuckDuckGo, original query for
Wikipedia) produce identical results. -/
theorem fanout_query_usage_witness :
    search ⟨fun _ => .ok "D", fun _ => .ok "W"⟩ (fun _ => .ok "s") "What is closure?"
      = search ⟨fun s => if s = "closure" then .ok "D" else .error (),
          fun s => if s = "What is closure?" then .ok "W" else .error ()⟩
          (fun _ => .ok "s") "What is closure?" :=
  fanout_query_usage.1 ⟨fun _ => .ok "D", fun _ => .ok "W"⟩
    ⟨fun s => if s = "closure" then .ok "D" else .error (),
      fun s => if s = "What is closure?" then .ok "W" else .error ()⟩
    (fun _ => .ok "s") "What is closure?" (by decide) (by decide)

/-! Claim C7: ordering and acceptance criteria of the Wikipedia strategies. -/

/-- Whatever the pages loop returns was accepted by the strategy's test. -/
theorem pagesLoop_accepts (accept : String → Bool) (pages : List (String × Option String)) :
    ∀ c, pagesLoop accept pages = some c → accept c = true := by
  induction pages with
  | nil =>
    intro c h
    exact absurd h (by simp [pagesLoop])
  | cons p rest ih =>
    intro c h
    rcases p with ⟨pid, oe⟩
    cases oe with
    | none =>
      simp only [pagesLoop] at h
      exact ih c h
    | some e =>
      simp only [pagesLoop] at h
      by_cases hpid : pid ≠ "-1"
      · rw [if_pos hpid] at h
        by_cases hacc : accept (pyStrip e) = true
        · rw [if_pos hacc] at h
          injection h with h'
          rw [← h']
          exact hacc
        · rw [if_neg hacc] at h
          exact ih c h
      · rw [if_neg hpid] at h
        exact ih c h

/-- The fall-through continuation after strategies 1 and 2 (the translation
of the third `try` block and the final `return ""`) computes exactly
strategy 3's own result, defaulted to the empty string. -/
theorem afterMethod2_eq_m3 (q : String)
    (ex se : Except Unit (Nat × List (String × Option String)))
    (re ro : Except Unit (Nat × String)) :
    (match re with
      | .error _ => ""
      | .ok (status, ext) =>
        if status = 200 then
          if pyStrip ext ≠ "" ∧ pyContains "may refer to:" (pyLower (pyStrip ext)) = false then
            pyStrip ext
          else ""
        else if status = 404 ∧ pyStrip (pyReplace q " biography" "") ≠ q then
          match ro with
          | .error _ => ""
          | .ok (st2, ext2) =>
            if st2 = 200 then (if pyStrip ext2 ≠ "" then pyStrip ext2 else "") else ""
        else "") = (method3Result ⟨true, ex, se, re, ro⟩ q).getD "" := by
  unfold method3Result
  cases re with
  | error u => rfl
  | ok p =>
    rcases p with ⟨status3, ext⟩
    dsimp only
    by_cases h3200 : status3 = 200
    · rw [if_pos h3200, if_pos h3200]
      by_cases hacc : pyStrip ext ≠ "" ∧ pyContains "may refer to:" (pyLower (pyStrip ext)) = false
      · rw [if_pos hacc, if_pos hacc]
        rfl
      · rw [if_neg hacc, if_neg hacc]
        rfl
    · rw [if_neg h3200, if_neg h3200]
      by_cases h404 : status3 = 404 ∧ pyStrip (pyReplace q " biography" "") ≠ q
      · rw [if_pos h404, if_pos h404]
        cases ro with
        | error v => rfl
        | ok p2 =>
          rcases p2 with ⟨st2, ext2⟩
          dsimp only
          by_cases hb : st2 = 200
          · rw [if_pos hb, if_pos hb]
            by_cases hne2 : pyStrip ext2 ≠ ""
            · rw [if_pos hne2, if_pos hne2]
              rfl
            · rw [if_neg hne2, if_neg hne2]
              rfl
          · rw [if_neg hb, if_neg hb]
            rfl
      · rw [if_neg h404, if_neg h404]
        rfl

/-- Claim C7 (amended): with a live session the three endpoint strategies
run strictly in order -- a strategy is consulted only when every earlier one
yielded no usable content, and the first acceptable result is returned
(strategy 3's `getD ""` covering the final `return ""`).  Each strategy
enforces its own acceptance criterion: full-extract requires non-empty text,
length over 100 and no disambiguation marker; extended-extract requires only
non-empty text of length over 100 -- it does not check the disambiguation
marker; summary-REST yields non-empty text, checking the marker only on its
primary 200 response (not on the 404 original-title fallback). -/
theorem wiki_strategy_order :
    ∀ (env : WikiEnv) (q : String), env.sessionOk = true →
      (∀ c, method1Result env = some c → search_wikipedia env q = c)
      ∧ (method1Result env = none → ∀ c, method2Result env = some c →
          search_wikipedia env q = c)
      ∧ (method1Result env = none → method2Result env = none →
          search_wikipedia env q = (method3Result env q).getD "")
      ∧ (∀ c, method1Result env = some c →
          c ≠ "" ∧ 100 < pyLen c ∧ pyContains "may refer to:" (pyLower c) = false)
      ∧ (∀ c, method2Result env = some c → c ≠ "" ∧ 100 < pyLen c)
      ∧ (∀ c, method3Result env q = some c → c ≠ "") := by
  intro env q hs
  rcases env with ⟨so, ex, se, re, ro⟩
  simp only at hs
  subst hs
  refine ⟨?_, ?_, ?_, ?_, ?_, ?_⟩
  · intro c h
    unfold method1Result at h
    cases hex : ex with
    | error u => simp [hex] at h
    | ok p =>
      rcases p with ⟨status, pages⟩
      simp only [hex] at h
      by_cases h200 : status = 200
      · rw [if_pos h200] at h
        simp [search_wikipedia, hex, h200, h]
      · rw [if_neg h200] at h
        simp at h
  · intro hm1 c h
    unfold method1Result at hm1
    unfold method2Result at h
    cases hse : se with
    | error v => simp [hse] at h
    | ok p =>
      rcases p with ⟨status2, pages2⟩
      simp only [hse] at h
      by_cases h2200 : status2 = 200
      · rw [if_pos h2200] at h
        cases hex : ex with
        | error u => simp [search_wikipedia, hex, hse, h2200, h]
        | ok p1 =>
          rcases p1 with ⟨status, pages⟩
          simp only [hex] at hm1
          by_cases h200 : status = 200
          · rw [if_pos h200] at hm1
            simp [search_wikipedia, hex, hse, h200, h2200, hm1, h]
          · simp [search_wikipedia, hex, hse, h200, h2200, h]
      · rw [if_neg h2200] at h
        simp at h
  · intro hm1 hm2
    unfold method1Result at hm1
    unfold method2Result at hm2
    cases hex : ex with
    | error u =>
      cases hse : se with
      | error v =>
        simp only [search_wikipedia, hex, hse]
        exact afterMethod2_eq_m3 q ex se re ro
      | ok p2 =>
        rcases p2 with ⟨status2, pages2⟩
        simp only [hse] at hm2
        by_cases h2200 : status2 = 200
        · rw [if_pos h2200] at hm2
          simp only [search_wikipedia, hex, hse]
          simp only [h2200, if_true, hm2]
          exact afterMethod2_eq_m3 q ex se re ro
        · simp only [search_wikipedia, hex, hse]
          rw [if_neg h2200]
          exact afterMethod2_eq_m3 q ex se re ro
    | ok p1 =>
      rcases p1 with ⟨status, pages⟩
      simp only [hex] at hm1
      by_cases h200 : status = 200
      · rw [if_pos h200] at hm1
        cases hse : se with
        | error v =>
          simp only [search_wikipedia, hex, hse]
          simp only [h200, if_true, hm1]
          exact afterMethod2_eq_m3 q ex se re ro
        | ok p2 =>
          rcases p2 with ⟨status2, pages2⟩
          simp only [hse] at hm2
          by_cases h2200 : status2 = 200
          · rw [if_pos h2200] at hm2
            simp only [search_wikipedia, hex, hse]
            simp only [h200, h2200, if_true, hm1, hm2]
            exact afterMethod2_eq_m3 q ex se re ro
          · simp only [search_wikipedia, hex, hse]
            simp only [h200, if_true, hm1]
            rw [if_neg h2200]
            exact afterMethod2_eq_m3 q ex se re ro
      · cases hse : se with
        | error v =>
          simp only [search_wikipedia, hex, hse]
          rw [if_neg h200]
          exact afterMethod2_eq_m3 q ex se re ro
        | ok p2 =>
          rcases p2 with ⟨status2, pages2⟩
          simp only [hse] at hm2
          by_cases h2200 : status2 = 200
          · rw [if_pos h2200] at hm2
            simp only [search_wikipedia, hex, hse]
            rw [if_neg h200]
            simp only [h2200, if_true, hm2]
            exact afterMethod2_eq_m3 q ex se re ro
          · simp only [search_wikipedia, hex, hse]
            rw [if_neg h200, if_neg h2200]
            exact afterMethod2_eq_m3 q ex se re ro
  · intro c h
    unfold method1Result at h
    cases hex : ex with
    | error u => simp [hex] at h
    | ok p =>
      rcases p with ⟨status, pages⟩
      simp only [hex] at h
      by_cases h200 : status = 200
      · rw [if_pos h200] at h
        exact of_decide_eq_true (pagesLoop_accepts accept1 pages c h)
      · rw [if_neg h200] at h
        simp at h
  · intro c h
    unfold method2Result at h
    cases hse : se with
    | error u => simp [hse] at h
    | ok p =>
      rcases p with ⟨status, pages⟩
      simp only [hse] at h
      by_cases h200 : status = 200
      · rw [if_pos h200] at h
        exact of_decide_eq_true (pagesLoop_accepts accept2 pages c h)
      · rw [if_neg h200] at h
        simp at h
  · intro c h
    unfold method3Result at h
    cases hre : re with
    | error u => simp [hre] at h
    | ok p =>
      rcases p with ⟨status, ext⟩
      simp only [hre] at h
      by_cases h200 : status = 200
      · rw [if_pos h200] at h
        by_cases hacc : pyStrip ext ≠ "" ∧ pyContains "may refer to:" (pyLower (pyStrip ext)) = false
        · rw [if_pos hacc] at h
          injection h with h'
          rw [← h']
          exact hacc.1
        · rw [if_neg hacc] at h
          simp at h
      · rw [if_neg h200] at h
        by_cases h404 : status = 404 ∧ pyStrip (pyReplace q " biography" "") ≠ q
        · rw [if_pos h404] at h
          cases hro : ro with
          | error v => simp [hro] at h
          | ok p2 =>
            rcases p2 with ⟨st2, ext2⟩
            simp only [hro] at h
            by_cases hb : st2 = 200
            · rw [if_pos hb] at h
              by_cases hne2 : pyStrip ext2 ≠ ""
              · rw [if_pos hne2] at h
                injection h with h'
                rw [← h']
                exact hne2
              · rw [if_neg hne2] at h
                simp at h
            · rw [if_neg hb] at h
              simp at h
        · rw [if_neg h404] at h
          simp at h

/-- A disambiguation-style extract longer than 100 characters. -/
def disambigText : String :=
  "Mercury may refer to: Mercury (element), Mercury (planet), Mercury (mythology), Mercury Records, or Freddie Mercury."

set_option maxRecDepth 8192 in
/-- Claim C7 counterexample: when strategy 1 yields nothing (a 404) and the
extended-extract strategy answers 200 with a long disambiguation page, the
lookup returns that page even though its content matches the disambiguation
marker phrase -- refuting "every accepted result satisfies the
non-disambiguation criterion regardless of which strategy produced it". -/
theorem wiki_strategy_order_cex :
    search_wikipedia
        ⟨true, .ok (404, []), .ok (200, [("100", some disambigText)]), .error (), .error ()⟩
        "Mercury" = disambigText
    ∧ pyContains "may refer to:" (pyLower disambigText) = true :=
  ⟨rfl, rfl⟩

/-- A non-disambiguation biography extract longer than 100 characters. -/
def longBioText : String :=
  "Alan Mathison Turing was an English mathematician, computer scientist, logician, cryptanalyst, philosopher and theoretical biologist."

set_option maxRecDepth 8192 in
/-- Witness for C7: the first clause of the amended theorem applied to an
environment where the full-extract strategy succeeds immediately. -/
theorem wiki_strategy_order_witness :
    search_wikipedia ⟨true, .ok (200, [("7", some longBioText)]), .error (), .error (), .error ()⟩
      "Alan Turing" = longBioText :=
  (wiki_strategy_order
    ⟨true, .ok (200, [("7", some longBioText)]), .error (), .error (), .error ()⟩
    "Alan Turing" rfl).1 longBioText (by decide)
